import Mathlib

/-!
Shallow embedding of the OpenHarmony winit backend
(`src/platform_impl/ohos/mod.rs`): the input-event normalizer
(`EventLoop::handle_input_event`), the main-event dispatch of
`EventLoop::run_app`, the `ActiveEventLoop` control-flow/exit state, and the
stubbed `Window` / `MonitorHandle` / `VideoModeHandle` facades.

Panicking paths (`unreachable!()`, `.expect(...)`) are modelled with `Option`:
`none` is a panic.  Floating-point values (positions, force, scale factors)
are only passed through by the code, never computed with, so they are
modelled as `Int` / `Rat`.
-/

namespace Ohos

/-- Physical pixel position, as carried by pointer events. -/
structure PhysicalPosition where
  x : Int
  y : Int
  deriving DecidableEq, Repr

/-- Physical pixel size (`PhysicalSize<u32>`). -/
structure PhysicalSize where
  width : Nat
  height : Nat
  deriving DecidableEq, Repr

/-- One native touch point: contact id, position and normalized force. -/
structure TouchPoint where
  id : Nat
  x : Int
  y : Int
  force : Int
  deriving DecidableEq, Repr

/-- The native touch action enum (`xcomponent::TouchEvent`).  `other n` stands
for the remaining native variants, which `handle_input_event` treats as
unreachable. -/
inductive TouchEvent where
  | down
  | move
  | up
  | cancel
  | other (n : Nat)
  deriving DecidableEq, Repr

/-- The native key action enum (`xcomponent::Action`).  `other n` stands for
any action value besides `Down`/`Up`. -/
inductive Action where
  | down
  | up
  | other (n : Nat)
  deriving DecidableEq, Repr

/-- A native touch event: device id, action kind, and the touched points
(`motion_event.touch_points`). -/
structure TouchEventData where
  device_id : Int
  event_type : TouchEvent
  touch_points : List TouchPoint
  deriving DecidableEq, Repr

/-- A native key event: device id, key code and action. -/
structure KeyEventData where
  device_id : Int
  code : Nat
  action : Action
  deriving DecidableEq, Repr

/-- The native input event union (`openharmony_ability::InputEvent`); `other`
covers the unknown variants that are only logged. -/
inductive InputEvent where
  | touchEvent (e : TouchEventData)
  | keyEvent (e : KeyEventData)
  | other
  deriving DecidableEq, Repr

/-- `event::ElementState`. -/
inductive ElementState where
  | pressed
  | released
  deriving DecidableEq, Repr

/-- `event::PointerKind`: tool-type discrimination is a placeholder, every
pointer is classified `Unknown`. -/
inductive PointerKind where
  | unknown
  deriving DecidableEq, Repr

/-- `event::PointerSource`, always `Unknown` in this backend. -/
inductive PointerSource where
  | unknown
  deriving DecidableEq, Repr

/-- `event::ButtonSource`, always `Unknown(0)` in this backend. -/
inductive ButtonSource where
  | unknownButton (n : Nat)
  deriving DecidableEq, Repr

/-- Modelled from the spec: `keycodes::to_physical_key` (the file
`platform_impl/ohos/keycodes.rs` is not part of the provided source) is a
static, total lookup table with a default fallback; it is modelled as a total
function on key codes. -/
def to_physical_key (code : Nat) : Nat := code

/-- Modelled from the spec: `keycodes::to_logical`, a static total lookup
table with a default fallback, modelled as a total function. -/
def to_logical (code : Nat) : Nat := code

/-- Modelled from the spec: `keycodes::to_location`, a static total lookup
table, modelled as a total function. -/
def to_location (code : Nat) : Nat := code

/-- The portable window events this backend emits
(`event::WindowEvent`), with the fields the backend fills in. -/
inductive WindowEvent where
  | pointerEntered (device_id : Option Int) (position : PhysicalPosition)
      (primary : Bool) (kind : PointerKind)
  | pointerButton (device_id : Option Int) (state : ElementState)
      (position : PhysicalPosition) (primary : Bool) (button : ButtonSource)
  | pointerMoved (device_id : Option Int) (position : PhysicalPosition)
      (primary : Bool) (source : PointerSource)
  | pointerLeft (device_id : Option Int) (primary : Bool)
      (position : Option PhysicalPosition) (kind : PointerKind)
  | keyboardInput (device_id : Option Int) (state : ElementState)
      (physical_key : Nat) (logical_key : Nat) (location : Nat)
      (key_repeat : Bool) (is_synthetic : Bool)
  | surfaceResized (size : PhysicalSize)
  | redrawRequested
  | focused (b : Bool)
  | scaleFactorChanged (scale_factor : Rat) (new_surface_size : PhysicalSize)
  deriving DecidableEq, Repr

/-- Android/OpenHarmony currently only supports one window:
`WindowId::from_raw(0)`. -/
def GLOBAL_WINDOW : Nat := 0

/-- Normalize a single touch point under one action, as the body of the
`for pointer in motion_event.touch_points` loop of `handle_input_event` does:
returns the emitted portable events and the updated `primary_pointer`;
`none` models the `_ => unreachable!()` panic. -/
def handle_touch_point (primary_pointer : Option Nat) (device_id : Option Int)
    (action : TouchEvent) (pointer : TouchPoint) :
    Option (List WindowEvent × Option Nat) :=
  let position : PhysicalPosition := ⟨pointer.x, pointer.y⟩
  let finger_id := pointer.id
  match action with
  | TouchEvent.down =>
    -- `let primary = action == TouchEvent::Down;` — always true in this arm
    let primary := true
    let primary_pointer := if primary then some finger_id else primary_pointer
    some ([WindowEvent.pointerEntered device_id position primary PointerKind.unknown,
           WindowEvent.pointerButton device_id ElementState.pressed position primary
             (ButtonSource.unknownButton 0)],
          primary_pointer)
  | TouchEvent.move =>
    let primary := decide (primary_pointer = some finger_id)
    some ([WindowEvent.pointerMoved device_id position primary PointerSource.unknown],
          primary_pointer)
  | TouchEvent.up =>
    let primary := decide (primary_pointer = some finger_id)
    some ([WindowEvent.pointerButton device_id ElementState.released position primary
             (ButtonSource.unknownButton 0),
           WindowEvent.pointerLeft device_id primary (some position) PointerKind.unknown],
          primary_pointer)
  | TouchEvent.cancel =>
    let primary := decide (primary_pointer = some finger_id)
    some ([WindowEvent.pointerLeft device_id primary (some position) PointerKind.unknown],
          primary_pointer)
  | TouchEvent.other _ => none

/-- Normalize all touch points of one motion event in order, threading the
`primary_pointer` state through the loop. -/
def handle_touch_points (primary_pointer : Option Nat) (device_id : Option Int)
    (action : TouchEvent) : List TouchPoint → Option (List WindowEvent × Option Nat)
  | [] => some ([], primary_pointer)
  | p :: ps =>
    match handle_touch_point primary_pointer device_id action p with
    | none => none
    | some (evs, pp) =>
      match handle_touch_points pp device_id action ps with
      | none => none
      | some (evs', pp') => some (evs ++ evs', pp')

/-- The key-state translation of the `InputEvent::KeyEvent` arm:
`Down → Pressed`, `Up → Released`, `_ → Released`. -/
def key_state (action : Action) : ElementState :=
  match action with
  | Action.down => ElementState.pressed
  | Action.up => ElementState.released
  | Action.other _ => ElementState.released

/-- `EventLoop::handle_input_event`, as a function from the
`primary_pointer` state and one native input event to the emitted portable
events and the new state; `none` models the defensive panic of the touch
arm.  Unknown input events are only logged. -/
def handle_input_event (primary_pointer : Option Nat) :
    InputEvent → Option (List WindowEvent × Option Nat)
  | InputEvent.touchEvent motion_event =>
    handle_touch_points primary_pointer (some motion_event.device_id)
      motion_event.event_type motion_event.touch_points
  | InputEvent.keyEvent key =>
    some ([WindowEvent.keyboardInput (some key.device_id) (key_state key.action)
            (to_physical_key key.code) (to_logical key.code) (to_location key.code)
            false false],
          primary_pointer)
  | InputEvent.other => some ([], primary_pointer)

/-- Run the normalizer over a sequence of native input events, concatenating
the emitted portable events and threading the `primary_pointer` state. -/
def run_input_events (primary_pointer : Option Nat) :
    List InputEvent → Option (List WindowEvent × Option Nat)
  | [] => some ([], primary_pointer)
  | e :: es =>
    match handle_input_event primary_pointer e with
    | none => none
    | some (evs, pp) =>
      match run_input_events pp es with
      | none => none
      | some (evs', pp') => some (evs ++ evs', pp')

/-- A single-point native touch event, the shape of a one-finger sequence. -/
def singleTouch (dev : Int) (action : TouchEvent) (p : TouchPoint) : InputEvent :=
  InputEvent.touchEvent ⟨dev, action, [p]⟩

/-- The native window backing the single surface: its queriable width and
height. -/
structure NativeWindow where
  width : Nat
  height : Nat
  deriving DecidableEq, Repr

/-- `OpenHarmonyApp`, the opaque OS provider, restricted to the queries the
code uses: `native_window()` (possibly null) and `scale()`. -/
structure OpenHarmonyApp where
  native_window : Option NativeWindow
  scale : Rat
  deriving DecidableEq, Repr

/-- The native main-event union (`openharmony_ability::Event`) as matched by
`EventLoop::run_app`; `unknown` covers the variants that are only logged. -/
inductive MainEvent where
  | surfaceCreate
  | surfaceDestroy
  | windowResize
  | windowRedraw
  | contentRectChange
  | gainedFocus
  | lostFocus
  | configChanged
  | lowMemory
  | start
  | resume
  | saveState
  | pause
  | stop
  | destroy
  | input (e : InputEvent)
  | unknown
  deriving DecidableEq, Repr

/-- The mutable state `run_app` threads through dispatch: the process-wide
`HAS_FOCUS` atomic and the event loop's `primary_pointer`. -/
structure DriverState where
  has_focus : Bool
  primary_pointer : Option Nat
  deriving DecidableEq, Repr

/-- `HAS_FOCUS` is `AtomicBool::new(true)` and `EventLoop::new` starts with
`primary_pointer: None`. -/
def initial_driver_state : DriverState :=
  { has_focus := true, primary_pointer := none }

/-- The application callbacks `run_app` invokes for one native event
(`ApplicationHandler` methods). -/
inductive Callback where
  | canCreateSurfaces
  | destroySurfaces
  | windowEvent (window_id : Nat) (event : WindowEvent)
  | memoryWarning
  | resumed
  | suspended
  deriving DecidableEq, Repr

/-- One iteration of the dispatch table inside `EventLoop::run_app`'s
`run_loop` closure: the callbacks invoked for one native event and the
updated driver state; `none` models the normalizer's defensive panic. -/
def dispatch_main_event (openharmony_app : OpenHarmonyApp) (st : DriverState) :
    MainEvent → Option (List Callback × DriverState)
  | MainEvent.surfaceCreate => some ([Callback.canCreateSurfaces], st)
  | MainEvent.surfaceDestroy => some ([Callback.destroySurfaces], st)
  | MainEvent.windowResize =>
    let size : PhysicalSize :=
      match openharmony_app.native_window with
      | some win => ⟨win.width, win.height⟩
      | none => ⟨0, 0⟩
    some ([Callback.windowEvent GLOBAL_WINDOW (WindowEvent.surfaceResized size)], st)
  | MainEvent.windowRedraw =>
    some ([Callback.windowEvent GLOBAL_WINDOW WindowEvent.redrawRequested], st)
  | MainEvent.contentRectChange => some ([], st)
  | MainEvent.gainedFocus =>
    some ([Callback.windowEvent GLOBAL_WINDOW (WindowEvent.focused true)],
          { st with has_focus := true })
  | MainEvent.lostFocus =>
    some ([Callback.windowEvent GLOBAL_WINDOW (WindowEvent.focused false)],
          { st with has_focus := false })
  | MainEvent.configChanged =>
    match openharmony_app.native_window with
    | some win =>
      some ([Callback.windowEvent GLOBAL_WINDOW
              (WindowEvent.scaleFactorChanged openharmony_app.scale
                ⟨win.width, win.height⟩)], st)
    | none => some ([], st)
  | MainEvent.lowMemory => some ([Callback.memoryWarning], st)
  | MainEvent.start => some ([Callback.resumed], st)
  | MainEvent.resume => some ([], st)
  | MainEvent.saveState => some ([], st)
  | MainEvent.pause => some ([], st)
  | MainEvent.stop => some ([Callback.suspended], st)
  | MainEvent.destroy => some ([], st)
  | MainEvent.input e =>
    match handle_input_event st.primary_pointer e with
    | none => none
    | some (evs, pp) =>
      some (evs.map (Callback.windowEvent GLOBAL_WINDOW),
            { st with primary_pointer := pp })
  | MainEvent.unknown => some ([], st)

/-- The portable control-flow modes.  The deadline of `WaitUntil` is an
abstract instant. -/
inductive ControlFlow where
  | poll
  | waitUntil (deadline : Nat)
  | wait
  deriving DecidableEq, Repr

/-- Modelled from the spec: `ControlFlow::default()` comes from the portable
`event_loop` module, which is not part of the provided source; winit's
default control-flow mode is `Wait`. -/
def ControlFlow.default : ControlFlow := ControlFlow.wait

/-- The state of `ActiveEventLoop`: the OS app handle plus the `Cell`s for
control flow and exit intent. -/
structure ActiveEventLoopState where
  app : OpenHarmonyApp
  control_flow : ControlFlow
  exit : Bool
  deriving DecidableEq, Repr

/-- `ActiveEventLoop::set_control_flow`. -/
def set_control_flow (s : ActiveEventLoopState) (cf : ControlFlow) :
    ActiveEventLoopState :=
  { s with control_flow := cf }

/-- `ActiveEventLoop::control_flow`. -/
def control_flow (s : ActiveEventLoopState) : ControlFlow := s.control_flow

/-- `ActiveEventLoop::exit`: sets the exit flag. -/
def request_exit (s : ActiveEventLoopState) : ActiveEventLoopState :=
  { s with exit := true }

/-- `ActiveEventLoop::exiting`. -/
def exiting (s : ActiveEventLoopState) : Bool := s.exit

/-- `ActiveEventLoop::clear_exit` — a private inherent method; nothing in the
module calls it and it is not part of the public `ActiveEventLoop` trait
surface. -/
def clear_exit (s : ActiveEventLoopState) : ActiveEventLoopState :=
  { s with exit := false }

/-- The operations of the public `ActiveEventLoop` trait surface. -/
inductive HandleOp where
  | set_control_flow (cf : ControlFlow)
  | exit
  | create_proxy
  | create_window
  | create_custom_cursor
  | available_monitors
  | primary_monitor
  | system_theme
  | listen_device_events
  | owned_display_handle
  deriving DecidableEq, Repr

/-- Effect of one public `ActiveEventLoop` operation on the handle state:
only `set_control_flow` and `exit` mutate it; every other trait method
leaves the two cells untouched. -/
def handle_step (s : ActiveEventLoopState) : HandleOp → ActiveEventLoopState
  | HandleOp.set_control_flow cf => set_control_flow s cf
  | HandleOp.exit => request_exit s
  | HandleOp.create_proxy => s
  | HandleOp.create_window => s
  | HandleOp.create_custom_cursor => s
  | HandleOp.available_monitors => s
  | HandleOp.primary_monitor => s
  | HandleOp.system_theme => s
  | HandleOp.listen_device_events => s
  | HandleOp.owned_display_handle => s

/-- `StartCause` of the first `new_events` call; `EventLoop::new` starts at
`Init`. -/
inductive StartCause where
  | init
  | poll
  | waitCancelled
  | resumeTimeReached
  deriving DecidableEq, Repr

/-- The state `EventLoop::new` constructs. -/
structure EventLoopState where
  openharmony_app : OpenHarmonyApp
  window_target : ActiveEventLoopState
  running : Bool
  cause : StartCause
  combining_accent : Option Char
  primary_pointer : Option Nat
  deriving DecidableEq, Repr

/-- `PlatformSpecificEventLoopAttributes`: an optional OS app handle. -/
structure PlatformSpecificEventLoopAttributes where
  openharmony_app : Option OpenHarmonyApp
  deriving DecidableEq, Repr

/-- `EventLoop::new`: panics (`.expect`) when no `OpenHarmonyApp` was passed
(modelled as `none`), otherwise builds the initial state with the default
control flow and a cleared exit flag. -/
def EventLoop.new (attributes : PlatformSpecificEventLoopAttributes) :
    Option EventLoopState :=
  match attributes.openharmony_app with
  | none => none
  | some app =>
    some { openharmony_app := app,
           window_target :=
             { app := app,
               control_flow := ControlFlow.default,
               exit := false },
           running := false,
           cause := StartCause.init,
           combining_accent := none,
           primary_pointer := none }

/-- The error taxonomy used by the fallible facade operations
(`RequestError`). -/
inductive RequestError where
  | notSupported (msg : String)
  | unavailable
  | os (msg : String)
  deriving DecidableEq, Repr

/-- `CustomCursorSource` is `NoCustomCursor` on this platform: an opaque
token. -/
structure CustomCursorSource where
  raw : Nat
  deriving DecidableEq, Repr

/-- `CustomCursor` is `NoCustomCursor` on this platform; no value of it is
ever produced by this backend. -/
structure CustomCursor where
  raw : Nat
  deriving DecidableEq, Repr

/-- `ActiveEventLoop::create_custom_cursor`: always
`Err(NotSupportedError::new("create_custom_cursor is not supported"))`. -/
def create_custom_cursor (_el : ActiveEventLoopState)
    (_source : CustomCursorSource) : Except RequestError CustomCursor :=
  Except.error (RequestError.notSupported "create_custom_cursor is not supported")

/-- The singleton window facade: holds only the cloned OS app handle. -/
structure Window where
  app : OpenHarmonyApp
  deriving DecidableEq, Repr

/-- `Window::new`: always succeeds; the requested attributes are ignored. -/
def Window.new (el : ActiveEventLoopState) : Except RequestError Window :=
  Except.ok ⟨el.app⟩

/-- `Window::scale_factor`: hardcoded `1.0`. -/
def Window.scale_factor (_w : Window) : Rat := 1

/-- `Window::surface_size`: hardcoded fallback `1080×2720`. -/
def Window.surface_size (_w : Window) : PhysicalSize := ⟨1080, 2720⟩

/-- `Window::outer_size`: hardcoded fallback `1080×2720`. -/
def Window.outer_size (_w : Window) : PhysicalSize := ⟨1080, 2720⟩

/-- `Window::has_focus`: reads the process-wide `HAS_FOCUS` flag (passed here
explicitly as `has_focus_global`). -/
def Window.has_focus (_w : Window) (has_focus_global : Bool) : Bool :=
  has_focus_global

/-- The result of a call that either panics (`unreachable!()`) or returns. -/
inductive PanicOr (α : Type) where
  | panics
  | ok (a : α)
  deriving DecidableEq

/-- The stub monitor handle. -/
structure MonitorHandle

/-- The stub video-mode handle. -/
structure VideoModeHandle

/-- `MonitorHandle::name`: `unreachable!()`. -/
def MonitorHandle.name (_m : MonitorHandle) : PanicOr (Option String) :=
  PanicOr.panics

/-- `MonitorHandle::position`: `unreachable!()`. -/
def MonitorHandle.position (_m : MonitorHandle) : PanicOr (Option PhysicalPosition) :=
  PanicOr.panics

/-- `MonitorHandle::scale_factor`: `unreachable!()`. -/
def MonitorHandle.scale_factor (_m : MonitorHandle) : PanicOr Rat :=
  PanicOr.panics

/-- `MonitorHandle::current_video_mode`: `unreachable!()`. -/
def MonitorHandle.current_video_mode (_m : MonitorHandle) :
    PanicOr (Option VideoModeHandle) :=
  PanicOr.panics

/-- `MonitorHandle::video_modes`: `unreachable!()`. -/
def MonitorHandle.video_modes (_m : MonitorHandle) :
    PanicOr (List VideoModeHandle) :=
  PanicOr.panics

/-- `VideoModeHandle::size`: `unreachable!()`. -/
def VideoModeHandle.size (_v : VideoModeHandle) : PanicOr PhysicalSize :=
  PanicOr.panics

/-- `VideoModeHandle::bit_depth`: `unreachable!()`. -/
def VideoModeHandle.bit_depth (_v : VideoModeHandle) : PanicOr (Option Nat) :=
  PanicOr.panics

/-- `VideoModeHandle::refresh_rate_millihertz`: `unreachable!()`. -/
def VideoModeHandle.refresh_rate_millihertz (_v : VideoModeHandle) :
    PanicOr (Option Nat) :=
  PanicOr.panics

/-- `VideoModeHandle::monitor`: `unreachable!()`. -/
def VideoModeHandle.monitor (_v : VideoModeHandle) : PanicOr MonitorHandle :=
  PanicOr.panics

/-- `ActiveEventLoop::available_monitors`: always the empty iterator. -/
def available_monitors (_el : ActiveEventLoopState) : List MonitorHandle := []

/-- `ActiveEventLoop::primary_monitor`: always `None`. -/
def primary_monitor (_el : ActiveEventLoopState) : Option MonitorHandle := none

/-- `Window::available_monitors`: always the empty iterator. -/
def Window.available_monitors (_w : Window) : List MonitorHandle := []

/-- `Window::primary_monitor`: always `None`. -/
def Window.primary_monitor (_w : Window) : Option MonitorHandle := none

/-- `Window::current_monitor`: always `None`. -/
def Window.current_monitor (_w : Window) : Option MonitorHandle := none

/-- A `Down` on one point emits `PointerEntered` then
`PointerButton(Pressed)` with `primary = true` and retargets the tracked
primary pointer to that finger. -/
theorem handle_down_single (s : Option Nat) (dev : Int) (p : TouchPoint) :
    handle_input_event s (singleTouch dev TouchEvent.down p) =
      some ([WindowEvent.pointerEntered (some dev) ⟨p.x, p.y⟩ true PointerKind.unknown,
             WindowEvent.pointerButton (some dev) ElementState.pressed ⟨p.x, p.y⟩ true
               (ButtonSource.unknownButton 0)],
            some p.id) := by
  simp [handle_input_event, singleTouch, handle_touch_points, handle_touch_point]

/-- A `Move` on one point emits exactly one `PointerMoved`, with `primary`
the comparison against the tracked pointer, and leaves the state unchanged. -/
theorem handle_move_single (s : Option Nat) (dev : Int) (p : TouchPoint) :
    handle_input_event s (singleTouch dev TouchEvent.move p) =
      some ([WindowEvent.pointerMoved (some dev) ⟨p.x, p.y⟩ (decide (s = some p.id))
               PointerSource.unknown],
            s) := by
  simp [handle_input_event, singleTouch, handle_touch_points, handle_touch_point]

/-- An `Up` on one point emits `PointerButton(Released)` then `PointerLeft`
and leaves the tracked pointer unchanged. -/
theorem handle_up_single (s : Option Nat) (dev : Int) (p : TouchPoint) :
    handle_input_event s (singleTouch dev TouchEvent.up p) =
      some ([WindowEvent.pointerButton (some dev) ElementState.released ⟨p.x, p.y⟩
               (decide (s = some p.id)) (ButtonSource.unknownButton 0),
             WindowEvent.pointerLeft (some dev) (decide (s = some p.id))
               (some ⟨p.x, p.y⟩) PointerKind.unknown],
            s) := by
  simp [handle_input_event, singleTouch, handle_touch_points, handle_touch_point]

/-- A `Cancel` on one point emits only `PointerLeft` and leaves the tracked
pointer unchanged. -/
theorem handle_cancel_single (s : Option Nat) (dev : Int) (p : TouchPoint) :
    handle_input_event s (singleTouch dev TouchEvent.cancel p) =
      some ([WindowEvent.pointerLeft (some dev) (decide (s = some p.id))
               (some ⟨p.x, p.y⟩) PointerKind.unknown],
            s) := by
  simp [handle_input_event, singleTouch, handle_touch_points, handle_touch_point]

/-- Running a block of single-point `Move` events of one finger `f` while `f`
is the tracked primary pointer emits one `PointerMoved` with `primary = true`
per move, keeps the state at `f`, and continues with the rest. -/
theorem run_moves_of_primary (dev : Int) (f : Nat) (moves : List TouchPoint)
    (rest : List InputEvent) (evs : List WindowEvent) (pp : Option Nat)
    (hm : ∀ p ∈ moves, p.id = f)
    (hrest : run_input_events (some f) rest = some (evs, pp)) :
    run_input_events (some f) (moves.map (singleTouch dev TouchEvent.move) ++ rest) =
      some ((moves.map fun p =>
              WindowEvent.pointerMoved (some dev) ⟨p.x, p.y⟩ true PointerSource.unknown)
            ++ evs, pp) := by
  induction moves with
  | nil => simpa using hrest
  | cons p ps ih =>
    have hp : p.id = f := hm p (List.mem_cons_self p ps)
    have hps : ∀ q ∈ ps, q.id = f := fun q hq => hm q (List.mem_cons_of_mem p hq)
    have hmove := handle_move_single (some f) dev p
    rw [hp] at hmove
    simp only [List.map_cons, List.cons_append, run_input_events, hmove,
      List.append_eq, List.nil_append, decide_True, decide_eq_true_eq]
    rw [ih hps]

/-- Claim C1: for every single-finger touch sequence `[Down, Move*, Up]`, the
normalizer (`handle_input_event`) emits exactly `PointerEntered`,
`PointerButton(Pressed)`, one `PointerMoved` per `Move`,
`PointerButton(Released)`, `PointerLeft`, in that order, with no other
pointer events. -/
theorem c1_single_finger_touch_sequence (s0 : Option Nat) (dev : Int) (f : Nat)
    (pd pu : TouchPoint) (moves : List TouchPoint)
    (hd : pd.id = f) (hm : ∀ p ∈ moves, p.id = f) (hu : pu.id = f) :
    run_input_events s0
        (singleTouch dev TouchEvent.down pd ::
          (moves.map (singleTouch dev TouchEvent.move) ++
            [singleTouch dev TouchEvent.up pu])) =
      some (WindowEvent.pointerEntered (some dev) ⟨pd.x, pd.y⟩ true PointerKind.unknown ::
            WindowEvent.pointerButton (some dev) ElementState.pressed ⟨pd.x, pd.y⟩ true
              (ButtonSource.unknownButton 0) ::
            ((moves.map fun p =>
                WindowEvent.pointerMoved (some dev) ⟨p.x, p.y⟩ true PointerSource.unknown) ++
             [WindowEvent.pointerButton (some dev) ElementState.released ⟨pu.x, pu.y⟩ true
                (ButtonSource.unknownButton 0),
              WindowEvent.pointerLeft (some dev) true (some ⟨pu.x, pu.y⟩)
                PointerKind.unknown]),
            some f) := by
  have hdown := handle_down_single s0 dev pd
  rw [hd] at hdown
  have hup := handle_up_single (some f) dev pu
  rw [hu] at hup
  have hupseq : run_input_events (some f) [singleTouch dev TouchEvent.up pu] =
      some ([WindowEvent.pointerButton (some dev) ElementState.released ⟨pu.x, pu.y⟩ true
               (ButtonSource.unknownButton 0),
             WindowEvent.pointerLeft (some dev) true (some ⟨pu.x, pu.y⟩)
               PointerKind.unknown],
            some f) := by
    simp [run_input_events, hup]
  have hmoves := run_moves_of_primary dev f moves [singleTouch dev TouchEvent.up pu]
    _ _ hm hupseq
  simp only [run_input_events, hdown]
  rw [hmoves]
  simp

/-- Witness for C1 at a concrete sequence `[Down, Move, Up]` of finger 5. -/
theorem c1_witness :
    run_input_events none
        [singleTouch 7 TouchEvent.down ⟨5, 1, 2, 3⟩,
         singleTouch 7 TouchEvent.move ⟨5, 4, 5, 6⟩,
         singleTouch 7 TouchEvent.up ⟨5, 7, 8, 9⟩] =
      some ([WindowEvent.pointerEntered (some 7) ⟨1, 2⟩ true PointerKind.unknown,
             WindowEvent.pointerButton (some 7) ElementState.pressed ⟨1, 2⟩ true
               (ButtonSource.unknownButton 0),
             WindowEvent.pointerMoved (some 7) ⟨4, 5⟩ true PointerSource.unknown,
             WindowEvent.pointerButton (some 7) ElementState.released ⟨7, 8⟩ true
               (ButtonSource.unknownButton 0),
             WindowEvent.pointerLeft (some 7) true (some ⟨7, 8⟩) PointerKind.unknown],
            some 5) := by
  simpa using c1_single_finger_touch_sequence none 7 5 ⟨5, 1, 2, 3⟩ ⟨5, 7, 8, 9⟩
    [⟨5, 4, 5, 6⟩] rfl (by decide) rfl

/-- Claim C2: the tracked primary finger is set only on a `Down` action and is
compared but never reset on `Move`/`Up`/`Cancel`; consequently, after `Down`
on finger `a` then `Down` on finger `b`, a `Move` on `a` emits `PointerMoved`
with `primary = false` while a `Move` on `b` emits `PointerMoved` with
`primary = true`. -/
theorem c2_primary_pointer_tracking (s0 pp : Option Nat) (dev : Int)
    (q : TouchPoint) (a b : Nat) (pa pb ma mb : TouchPoint)
    (hab : a ≠ b) (hpa : pa.id = a) (hpb : pb.id = b)
    (hma : ma.id = a) (hmb : mb.id = b) :
    (handle_touch_point pp (some dev) TouchEvent.down q).map Prod.snd
        = some (some q.id) ∧
    (handle_touch_point pp (some dev) TouchEvent.move q).map Prod.snd = some pp ∧
    (handle_touch_point pp (some dev) TouchEvent.up q).map Prod.snd = some pp ∧
    (handle_touch_point pp (some dev) TouchEvent.cancel q).map Prod.snd = some pp ∧
    run_input_events s0
        [singleTouch dev TouchEvent.down pa, singleTouch dev TouchEvent.down pb,
         singleTouch dev TouchEvent.move ma] =
      some ([WindowEvent.pointerEntered (some dev) ⟨pa.x, pa.y⟩ true PointerKind.unknown,
             WindowEvent.pointerButton (some dev) ElementState.pressed ⟨pa.x, pa.y⟩ true
               (ButtonSource.unknownButton 0),
             WindowEvent.pointerEntered (some dev) ⟨pb.x, pb.y⟩ true PointerKind.unknown,
             WindowEvent.pointerButton (some dev) ElementState.pressed ⟨pb.x, pb.y⟩ true
               (ButtonSource.unknownButton 0),
             WindowEvent.pointerMoved (some dev) ⟨ma.x, ma.y⟩ false PointerSource.unknown],
            some b) ∧
    run_input_events s0
        [singleTouch dev TouchEvent.down pa, singleTouch dev TouchEvent.down pb,
         singleTouch dev TouchEvent.move mb] =
      some ([WindowEvent.pointerEntered (some dev) ⟨pa.x, pa.y⟩ true PointerKind.unknown,
             WindowEvent.pointerButton (some dev) ElementState.pressed ⟨pa.x, pa.y⟩ true
               (ButtonSource.unknownButton 0),
             WindowEvent.pointerEntered (some dev) ⟨pb.x, pb.y⟩ true PointerKind.unknown,
             WindowEvent.pointerButton (some dev) ElementState.pressed ⟨pb.x, pb.y⟩ true
               (ButtonSource.unknownButton 0),
             WindowEvent.pointerMoved (some dev) ⟨mb.x, mb.y⟩ true PointerSource.unknown],
            some b) := by
  have hba : b ≠ a := Ne.symm hab
  have hdown_a := handle_down_single s0 dev pa
  rw [hpa] at hdown_a
  have hdown_b := handle_down_single (some a) dev pb
  rw [hpb] at hdown_b
  have hmove_a := handle_move_single (some b) dev ma
  rw [hma] at hmove_a
  have hmove_b := handle_move_single (some b) dev mb
  rw [hmb] at hmove_b
  refine ⟨by simp [handle_touch_point], by simp [handle_touch_point],
          by simp [handle_touch_point], by simp [handle_touch_point], ?_, ?_⟩
  · simp [run_input_events, hdown_a, hdown_b, hmove_a, hba]
  · simp [run_input_events, hdown_a, hdown_b, hmove_b]

/-- Witness for C2 at fingers 0 and 1. -/
theorem c2_witness :
    (handle_touch_point (some 9) (some 4) TouchEvent.down ⟨2, 0, 0, 0⟩).map Prod.snd
        = some (some 2) ∧
    (handle_touch_point (some 9) (some 4) TouchEvent.move ⟨2, 0, 0, 0⟩).map Prod.snd
        = some (some 9) ∧
    (handle_touch_point (some 9) (some 4) TouchEvent.up ⟨2, 0, 0, 0⟩).map Prod.snd
        = some (some 9) ∧
    (handle_touch_point (some 9) (some 4) TouchEvent.cancel ⟨2, 0, 0, 0⟩).map Prod.snd
        = some (some 9) ∧
    run_input_events none
        [singleTouch 4 TouchEvent.down ⟨0, 10, 11, 0⟩,
         singleTouch 4 TouchEvent.down ⟨1, 20, 21, 0⟩,
         singleTouch 4 TouchEvent.move ⟨0, 12, 13, 0⟩] =
      some ([WindowEvent.pointerEntered (some 4) ⟨10, 11⟩ true PointerKind.unknown,
             WindowEvent.pointerButton (some 4) ElementState.pressed ⟨10, 11⟩ true
               (ButtonSource.unknownButton 0),
             WindowEvent.pointerEntered (some 4) ⟨20, 21⟩ true PointerKind.unknown,
             WindowEvent.pointerButton (some 4) ElementState.pressed ⟨20, 21⟩ true
               (ButtonSource.unknownButton 0),
             WindowEvent.pointerMoved (some 4) ⟨12, 13⟩ false PointerSource.unknown],
            some 1) ∧
    run_input_events none
        [singleTouch 4 TouchEvent.down ⟨0, 10, 11, 0⟩,
         singleTouch 4 TouchEvent.down ⟨1, 20, 21, 0⟩,
         singleTouch 4 TouchEvent.move ⟨1, 22, 23, 0⟩] =
      some ([WindowEvent.pointerEntered (some 4) ⟨10, 11⟩ true PointerKind.unknown,
             WindowEvent.pointerButton (some 4) ElementState.pressed ⟨10, 11⟩ true
               (ButtonSource.unknownButton 0),
             WindowEvent.pointerEntered (some 4) ⟨20, 21⟩ true PointerKind.unknown,
             WindowEvent.pointerButton (some 4) ElementState.pressed ⟨20, 21⟩ true
               (ButtonSource.unknownButton 0),
             WindowEvent.pointerMoved (some 4) ⟨22, 23⟩ true PointerSource.unknown],
            some 1) := by
  simpa using c2_primary_pointer_tracking none (some 9) 4 ⟨2, 0, 0, 0⟩ 0 1
    ⟨0, 10, 11, 0⟩ ⟨1, 20, 21, 0⟩ ⟨0, 12, 13, 0⟩ ⟨1, 22, 23, 0⟩
    (by decide) rfl rfl rfl rfl

/-- Claim C3: for the touch sequence `[Down, Cancel]` on one finger the
normalizer emits exactly `PointerEntered`, `PointerButton(Pressed)`,
`PointerLeft`: a `Cancel` produces a `PointerLeft` but never a
`PointerButton(Released)`. -/
theorem c3_down_cancel (s0 : Option Nat) (dev : Int) (f : Nat)
    (pd pc : TouchPoint) (hd : pd.id = f) (hc : pc.id = f) :
    run_input_events s0
        [singleTouch dev TouchEvent.down pd, singleTouch dev TouchEvent.cancel pc] =
      some ([WindowEvent.pointerEntered (some dev) ⟨pd.x, pd.y⟩ true PointerKind.unknown,
             WindowEvent.pointerButton (some dev) ElementState.pressed ⟨pd.x, pd.y⟩ true
               (ButtonSource.unknownButton 0),
             WindowEvent.pointerLeft (some dev) true (some ⟨pc.x, pc.y⟩)
               PointerKind.unknown],
            some f) := by
  have hdown := handle_down_single s0 dev pd
  rw [hd] at hdown
  have hcancel := handle_cancel_single (some f) dev pc
  rw [hc] at hcancel
  simp [run_input_events, hdown, hcancel]

/-- Witness for C3 at a concrete `[Down, Cancel]` of finger 3. -/
theorem c3_witness :
    run_input_events none
        [singleTouch 2 TouchEvent.down ⟨3, 30, 31, 0⟩,
         singleTouch 2 TouchEvent.cancel ⟨3, 32, 33, 0⟩] =
      some ([WindowEvent.pointerEntered (some 2) ⟨30, 31⟩ true PointerKind.unknown,
             WindowEvent.pointerButton (some 2) ElementState.pressed ⟨30, 31⟩ true
               (ButtonSource.unknownButton 0),
             WindowEvent.pointerLeft (some 2) true (some ⟨32, 33⟩)
               PointerKind.unknown],
            some 3) := by
  simpa using c3_down_cancel none 2 3 ⟨3, 30, 31, 0⟩ ⟨3, 32, 33, 0⟩ rfl rfl

/-- Claim C4: the key translation maps action `Down` to `Pressed` and every
other action value (including `Up`) to `Released`; it never panics on an
unexpected key action (the handler is total on key events) and reports
`Pressed` exactly for `Down`. -/
theorem c4_key_action_translation (pp : Option Nat) (k : KeyEventData) :
    handle_input_event pp (InputEvent.keyEvent k) =
      some ([WindowEvent.keyboardInput (some k.device_id) (key_state k.action)
              (to_physical_key k.code) (to_logical k.code) (to_location k.code)
              false false],
            pp) ∧
    (key_state k.action = ElementState.pressed ↔ k.action = Action.down) := by
  refine ⟨rfl, ?_⟩
  cases k.action <;> simp [key_state]

/-- Claim C5: the process-wide focus flag starts `true`; `GainedFocus` sets it
to `true` and emits `Focused(true)`, `LostFocus` sets it to `false` and emits
`Focused(false)`, and no other native event changes it, so `has_focus()`
always reflects the most recent focus notification. -/
theorem c5_focus_flag (w : Window) (app : OpenHarmonyApp) (st : DriverState)
    (e : MainEvent) (h1 : e ≠ MainEvent.gainedFocus) (h2 : e ≠ MainEvent.lostFocus) :
    Window.has_focus w initial_driver_state.has_focus = true ∧
    dispatch_main_event app st MainEvent.gainedFocus =
      some ([Callback.windowEvent GLOBAL_WINDOW (WindowEvent.focused true)],
            { st with has_focus := true }) ∧
    dispatch_main_event app st MainEvent.lostFocus =
      some ([Callback.windowEvent GLOBAL_WINDOW (WindowEvent.focused false)],
            { st with has_focus := false }) ∧
    ∀ r ∈ dispatch_main_event app st e,
      Window.has_focus w r.2.has_focus = Window.has_focus w st.has_focus := by
  refine ⟨rfl, rfl, rfl, fun r hr => ?_⟩
  cases e <;>
    first
      | (exact absurd rfl h1)
      | (exact absurd rfl h2)
      | (simp only [dispatch_main_event, Option.mem_def, Option.some.injEq] at hr;
         subst hr; rfl)
      | (simp only [dispatch_main_event, Option.mem_def] at hr;
         split at hr <;> (try simp only [Option.some.injEq] at hr) <;>
           (try subst hr) <;> simp_all [Window.has_focus])

/-- Witness for C5 with the non-focus event `Start`. -/
theorem c5_witness :
    Window.has_focus ⟨⟨none, 1⟩⟩ initial_driver_state.has_focus = true ∧
    dispatch_main_event ⟨none, 1⟩ initial_driver_state MainEvent.gainedFocus =
      some ([Callback.windowEvent GLOBAL_WINDOW (WindowEvent.focused true)],
            { initial_driver_state with has_focus := true }) ∧
    dispatch_main_event ⟨none, 1⟩ initial_driver_state MainEvent.lostFocus =
      some ([Callback.windowEvent GLOBAL_WINDOW (WindowEvent.focused false)],
            { initial_driver_state with has_focus := false }) ∧
    ∀ r ∈ dispatch_main_event ⟨none, 1⟩ initial_driver_state MainEvent.start,
      Window.has_focus ⟨⟨none, 1⟩⟩ r.2.has_focus =
        Window.has_focus ⟨⟨none, 1⟩⟩ initial_driver_state.has_focus :=
  c5_focus_flag ⟨⟨none, 1⟩⟩ ⟨none, 1⟩ initial_driver_state MainEvent.start
    (by decide) (by decide)

/-- Claim C6: `create_custom_cursor` returns the `NotSupported` error for
every input; it never succeeds and never returns another error kind. -/
theorem c6_create_custom_cursor_not_supported (el : ActiveEventLoopState)
    (source : CustomCursorSource) :
    create_custom_cursor el source =
      Except.error
        (RequestError.notSupported "create_custom_cursor is not supported") :=
  rfl

/-- Claim C7: the window geometry size queries `surface_size` and
`outer_size` return the fallback size `1080×2720` (they are constant, hence
in particular before any `SurfaceCreate` notification) and are infallible:
their result type carries no error case. -/
theorem c7_fallback_geometry (w : Window) :
    Window.surface_size w = ⟨1080, 2720⟩ ∧ Window.outer_size w = ⟨1080, 2720⟩ :=
  ⟨rfl, rfl⟩

/-- Claim C8: `Window::scale_factor()` always returns exactly `1`, whatever
the native scale the OS reports; the native scale is surfaced only through
the `ScaleFactorChanged` event emitted on `ConfigChanged` when a native
surface exists. -/
theorem c8_scale_factor_constant (w : Window) (app : OpenHarmonyApp)
    (st : DriverState) (win : NativeWindow) (h : app.native_window = some win) :
    Window.scale_factor w = 1 ∧
    dispatch_main_event app st MainEvent.configChanged =
      some ([Callback.windowEvent GLOBAL_WINDOW
              (WindowEvent.scaleFactorChanged app.scale ⟨win.width, win.height⟩)],
            st) := by
  refine ⟨rfl, ?_⟩
  simp [dispatch_main_event, h]

/-- Witness for C8 with a native window of size 100×200 and native scale 3. -/
theorem c8_witness :
    Window.scale_factor ⟨⟨some ⟨100, 200⟩, 3⟩⟩ = 1 ∧
    dispatch_main_event ⟨some ⟨100, 200⟩, 3⟩ initial_driver_state
        MainEvent.configChanged =
      some ([Callback.windowEvent GLOBAL_WINDOW
              (WindowEvent.scaleFactorChanged 3 ⟨100, 200⟩)],
            initial_driver_state) :=
  c8_scale_factor_constant ⟨⟨some ⟨100, 200⟩, 3⟩⟩ ⟨some ⟨100, 200⟩, 3⟩
    initial_driver_state ⟨100, 200⟩ rfl

/-- Claim C9: every `MonitorHandle` and `VideoModeHandle` method
unconditionally aborts via `unreachable!()`, and these panics are unreachable
through the public interface because `available_monitors` always yields the
empty iterator and `primary_monitor`/`current_monitor` always return `None`,
so no `MonitorHandle` is ever produced. -/
theorem c9_monitor_stubs (m : MonitorHandle) (v : VideoModeHandle)
    (el : ActiveEventLoopState) (w : Window) :
    m.name = PanicOr.panics ∧ m.position = PanicOr.panics ∧
    m.scale_factor = PanicOr.panics ∧ m.current_video_mode = PanicOr.panics ∧
    m.video_modes = PanicOr.panics ∧
    v.size = PanicOr.panics ∧ v.bit_depth = PanicOr.panics ∧
    v.refresh_rate_millihertz = PanicOr.panics ∧ v.monitor = PanicOr.panics ∧
    available_monitors el = [] ∧ primary_monitor el = none ∧
    Window.available_monitors w = [] ∧ Window.primary_monitor w = none ∧
    Window.current_monitor w = none :=
  ⟨rfl, rfl, rfl, rfl, rfl, rfl, rfl, rfl, rfl, rfl, rfl, rfl, rfl, rfl⟩

/-- Claim C10: a newly constructed event loop reports `exiting() = false` and
`control_flow()` equal to the default control-flow mode, and every public
`ActiveEventLoop` operation other than `exit` and `set_control_flow` leaves
the handle state unchanged. -/
theorem c10_initial_state_and_frame (app : OpenHarmonyApp)
    (s : ActiveEventLoopState) (op : HandleOp)
    (h1 : ∀ cf, op ≠ HandleOp.set_control_flow cf)
    (h2 : op ≠ HandleOp.exit) :
    (EventLoop.new ⟨some app⟩).map
        (fun el => (exiting el.window_target, control_flow el.window_target)) =
      some (false, ControlFlow.default) ∧
    handle_step s op = s := by
  refine ⟨rfl, ?_⟩
  cases op <;> first | rfl | exact absurd rfl (h1 _) | exact absurd rfl h2

/-- Witness for C10 with the non-mutating operation `create_proxy`. -/
theorem c10_witness :
    (EventLoop.new ⟨some ⟨none, 1⟩⟩).map
        (fun el => (exiting el.window_target, control_flow el.window_target)) =
      some (false, ControlFlow.default) ∧
    handle_step ⟨⟨none, 1⟩, ControlFlow.poll, true⟩ HandleOp.create_proxy =
      ⟨⟨none, 1⟩, ControlFlow.poll, true⟩ :=
  c10_initial_state_and_frame ⟨none, 1⟩ ⟨⟨none, 1⟩, ControlFlow.poll, true⟩
    HandleOp.create_proxy (fun _ h => HandleOp.noConfusion h)
    (fun h => HandleOp.noConfusion h)

end Ohos
